import Mathlib

/-!
Shallow embedding of `easy-ws` (src/src/lib.rs), a minimal client-side
WebSocket wrapper: a public handle `SimpleWebSocket` built by
`SimpleWebSocketBuilder`, holding an mpsc command channel, configuration
(endpoint, timeout, interval), four optional callback slots, and a
connection state. `connect` spawns a background thread running
`ws::connect` with a `WsClient` handler; `disconnect` and `send` submit
commands to the channel.

Modelling choices:
- Machine integers (`u64` millisecond durations) are modelled as `Nat`;
  no arithmetic overflows in scope.
- The mpsc channel pair `(_tx, _rx)` lives entirely inside the handle
  struct, so it is modelled as a FIFO queue field `rx` (the commands
  submitted and not yet received) plus a flag `rxAlive` recording whether
  the receiving half is alive.  The code stores the `Receiver` in the
  handle itself, so `rxAlive` is `true` for every handle the code builds;
  the flag exists so that the `SendError` branch of `Sender::send`
  (converted by the `From` impl into `EasyWsError::Unknown`) is
  representable.
- Callback closures are opaque to the wrapper; a slot is modelled as
  `Option Nat` (the identity of the registered handler) and a callback
  invocation is recorded as a `CallbackEvent` carrying that identity and
  the argument it was invoked with.
- `thread::spawn` is modelled by incrementing a `spawnedLoops` counter on
  the handle (the number of background network threads spawned over the
  handle's life) plus a separate function `networkThreadBody` giving the
  observable behaviour of the spawned closure: which commands it receives
  from the channel and which user callbacks it invokes, as a function of
  the outcome of the external `ws::connect` collaborator.
- The external `ws` crate is the transport collaborator: its outcome is a
  parameter `Except String (List String)` — either a failure description
  (`ws::connect` returned `Err` and `error.description()` is the string)
  or the list of text messages the event loop delivers to the handler.
-/

/-- Error enum from the source: `pub enum EasyWsError { Unknown }`. -/
inductive EasyWsError where
  | Unknown
deriving DecidableEq, Repr

/-- Command enum: `pub enum EasyWsCommand { Disconnect, Send(String) }`. -/
inductive EasyWsCommand where
  | Disconnect
  | Send (msg : String)
deriving DecidableEq, Repr

/-- Connection-state enum, constructor order as in the source. -/
inductive EasyWsConnectionState where
  | Connecting
  | Handshake
  | Connected
  | Disconnected
deriving DecidableEq, Repr

/-- `pub type EasyWsResult = Result<(), EasyWsError>;` -/
abbrev EasyWsResult := Except EasyWsError Unit

/-- The error value of `std::sync::mpsc::Sender::send`, `SendError<EasyWsCommand>`:
it carries back the command that could not be delivered. -/
structure SendErrorCmd where
  cmd : EasyWsCommand
deriving DecidableEq, Repr

/-- `impl From<SendError<EasyWsCommand>> for EasyWsError`: every channel send
failure is converted to `EasyWsError::Unknown`. -/
def EasyWsError.fromSendError (_e : SendErrorCmd) : EasyWsError :=
  EasyWsError.Unknown

/-- A recorded invocation of one of the user's registered callbacks: the
`Nat` is the identity of the registered handler (the callback slot's
content at dispatch time), plus the argument it received, if any. -/
inductive CallbackEvent where
  | onConnect (handler : Nat)
  | onDisconnect (handler : Nat)
  | onMessage (handler : Nat) (text : String)
  | onError (handler : Nat) (text : String)
deriving DecidableEq, Repr

/-- The public handle `pub struct SimpleWebSocket`.  `rx`/`rxAlive` model the
mpsc pair `_rx : Receiver<EasyWsCommand>`, `_tx : Sender<EasyWsCommand>`
(both halves stored in this same struct); `spawnedLoops` records the effect
of every `thread::spawn` performed by `connect` (0 at construction). -/
structure SimpleWebSocket where
  rx : List EasyWsCommand
  rxAlive : Bool
  timeout : Nat
  interval : Nat
  endpoint : String
  on_connect_fn : Option Nat
  on_disconnect_fn : Option Nat
  on_message_fn : Option Nat
  on_error_fn : Option Nat
  state : EasyWsConnectionState
  spawnedLoops : Nat
deriving DecidableEq, Repr

/-- `SimpleWebSocket::new(endpoint, timeout_ms, interval)`: fresh channel,
durations from milliseconds, no callbacks registered, state Disconnected. -/
def SimpleWebSocket.new (endpoint : String) (timeout_ms : Nat) (interval : Nat) :
    SimpleWebSocket :=
  { rx := []
    rxAlive := true
    timeout := timeout_ms
    interval := interval
    endpoint := endpoint
    on_connect_fn := none
    on_disconnect_fn := none
    on_message_fn := none
    on_error_fn := none
    state := EasyWsConnectionState.Disconnected
    spawnedLoops := 0 }

/-- `self._tx.send(cmd)`: enqueue at the back of the FIFO if the receiving
half is alive, otherwise fail with `SendError(cmd)`. -/
def SimpleWebSocket.txSend (ws : SimpleWebSocket) (cmd : EasyWsCommand) :
    SimpleWebSocket × Except SendErrorCmd Unit :=
  if ws.rxAlive then
    ({ ws with rx := ws.rx ++ [cmd] }, Except.ok ())
  else
    (ws, Except.error { cmd := cmd })

/-- `SimpleWebSocket::connect` (src/src/lib.rs:82-99).  The guard
`if self.state != Disconnected { () }` evaluates `()` in its then-branch and
falls through: it has no effect.  The method then unconditionally spawns the
background thread (modelled by incrementing `spawnedLoops`; the thread's
observable behaviour is `networkThreadBody`) and returns `Ok(())`. -/
def SimpleWebSocket.connect (ws : SimpleWebSocket) : SimpleWebSocket × EasyWsResult :=
  let _guard : Unit :=
    if ws.state ≠ EasyWsConnectionState.Disconnected then () else ()
  ({ ws with spawnedLoops := ws.spawnedLoops + 1 }, Except.ok ())

/-- `SimpleWebSocket::disconnect` (src/src/lib.rs:101-109).  The guard
`if self.state == Disconnected { () }` is likewise a no-op; the method then
submits `Disconnect` over the channel (the `?` operator converting a
`SendError` through the `From` impl) and returns `Ok(())`. -/
def SimpleWebSocket.disconnect (ws : SimpleWebSocket) : SimpleWebSocket × EasyWsResult :=
  let _guard : Unit :=
    if ws.state = EasyWsConnectionState.Disconnected then () else ()
  match ws.txSend EasyWsCommand.Disconnect with
  | (ws2, Except.ok _) => (ws2, Except.ok ())
  | (ws2, Except.error e) => (ws2, Except.error (EasyWsError.fromSendError e))

/-- `SimpleWebSocket::send` (src/src/lib.rs:111-119): converts the message to
an owned string and submits `Send(msg)` over the channel, with no check of
the connection state. -/
def SimpleWebSocket.send (ws : SimpleWebSocket) (message : String) :
    SimpleWebSocket × EasyWsResult :=
  let msg := message
  match ws.txSend (EasyWsCommand.Send msg) with
  | (ws2, Except.ok _) => (ws2, Except.ok ())
  | (ws2, Except.error e) => (ws2, Except.error (EasyWsError.fromSendError e))

/-- `SimpleWebSocket::on_connect`: replace the on-connect callback slot. -/
def SimpleWebSocket.on_connect (ws : SimpleWebSocket) (callback : Nat) : SimpleWebSocket :=
  { ws with on_connect_fn := some callback }

/-- `SimpleWebSocket::on_disconnect`: replace the on-disconnect callback slot. -/
def SimpleWebSocket.on_disconnect (ws : SimpleWebSocket) (callback : Nat) : SimpleWebSocket :=
  { ws with on_disconnect_fn := some callback }

/-- `SimpleWebSocket::on_message`: replace the on-message callback slot. -/
def SimpleWebSocket.on_message (ws : SimpleWebSocket) (callback : Nat) : SimpleWebSocket :=
  { ws with on_message_fn := some callback }

/-- `SimpleWebSocket::on_error`: replace the on-error callback slot. -/
def SimpleWebSocket.on_error (ws : SimpleWebSocket) (callback : Nat) : SimpleWebSocket :=
  { ws with on_error_fn := some callback }

/-- `struct WsClient { out: ws::Sender }`; the `ws::Sender` is opaque here. -/
structure WsClient where
  out : Unit
deriving DecidableEq, Repr

/-- `impl ws::Handler for WsClient`, `fn on_message` (src/src/lib.rs:39-42):
the body is just `Ok(())` — the incoming message is ignored and no user
callback is invoked.  Result: the updated client and the (empty) list of
user-callback invocations this handler performs. -/
def WsClient.on_message (c : WsClient) (_msg : String) : WsClient × List CallbackEvent :=
  (c, [])

/-- The closure passed to `thread::spawn` inside `connect`
(src/src/lib.rs:89-96): it runs `ws::connect(endpoint, |out| WsClient { out })`.
If that returns `Err(error)`, it invokes `on_error_fn` (when registered) with
`error.description()`; on `Ok`, the `ws` event loop has run, delivering each
incoming text message to `WsClient::on_message`.  The closure never reads
from the command channel `_rx`.  `openResult` is the collaborator's outcome:
`Except.error d` for a failed open with description `d`, `Except.ok msgs` for
a connection over which `msgs` arrived.  Result: the list of commands the
thread received from the command channel (always `[]`) and the list of user
callbacks it invoked. -/
def networkThreadBody (ws : SimpleWebSocket) (openResult : Except String (List String)) :
    List EasyWsCommand × List CallbackEvent :=
  match openResult with
  | Except.ok msgs =>
      ([], (msgs.map fun m => (WsClient.on_message { out := () } m).snd).flatten)
  | Except.error description =>
      ([],
        match ws.on_error_fn with
        | some f => [CallbackEvent.onError f description]
        | none => [])

/-- `pub struct SimpleWebSocketBuilder` (lifetimes and `Cow` erased: the
endpoint is a string). -/
structure SimpleWebSocketBuilder where
  timeout : Nat
  interval : Nat
  endpoint : String
deriving DecidableEq, Repr

/-- `SimpleWebSocketBuilder::new(endpoint)`: defaults timeout 10000 ms,
interval 1000 ms. -/
def SimpleWebSocketBuilder.new (endpoint : String) : SimpleWebSocketBuilder :=
  { timeout := 10000
    interval := 1000
    endpoint := endpoint }

/-- `with_timeout(milliseconds)`: set the timeout field. -/
def SimpleWebSocketBuilder.with_timeout (b : SimpleWebSocketBuilder) (milliseconds : Nat) :
    SimpleWebSocketBuilder :=
  { b with timeout := milliseconds }

/-- `with_interval(milliseconds)`: set the interval field. -/
def SimpleWebSocketBuilder.with_interval (b : SimpleWebSocketBuilder) (milliseconds : Nat) :
    SimpleWebSocketBuilder :=
  { b with interval := milliseconds }

/-- `build()`: `SimpleWebSocket::new(&self.endpoint, self.timeout, self.interval)`. -/
def SimpleWebSocketBuilder.build (b : SimpleWebSocketBuilder) : SimpleWebSocket :=
  SimpleWebSocket.new b.endpoint b.timeout b.interval

/-- The connection configuration of a handle: endpoint, connect timeout,
keep-alive interval. -/
def SimpleWebSocket.config (ws : SimpleWebSocket) : String × Nat × Nat :=
  (ws.endpoint, ws.timeout, ws.interval)

/-- Handles reachable through the public API: built by `new` or
`Builder::build`, then transformed by any sequence of the public
operations (`connect`, `disconnect`, `send`, and the four
callback-registration methods). -/
inductive Reachable : SimpleWebSocket → Prop where
  | of_new (e : String) (t i : Nat) : Reachable (SimpleWebSocket.new e t i)
  | of_build (b : SimpleWebSocketBuilder) : Reachable b.build
  | of_connect {ws : SimpleWebSocket} : Reachable ws → Reachable ws.connect.fst
  | of_disconnect {ws : SimpleWebSocket} : Reachable ws → Reachable ws.disconnect.fst
  | of_send {ws : SimpleWebSocket} (m : String) : Reachable ws → Reachable (ws.send m).fst
  | of_on_connect {ws : SimpleWebSocket} (c : Nat) :
      Reachable ws → Reachable (ws.on_connect c)
  | of_on_disconnect {ws : SimpleWebSocket} (c : Nat) :
      Reachable ws → Reachable (ws.on_disconnect c)
  | of_on_message {ws : SimpleWebSocket} (c : Nat) :
      Reachable ws → Reachable (ws.on_message c)
  | of_on_error {ws : SimpleWebSocket} (c : Nat) :
      Reachable ws → Reachable (ws.on_error c)

/-! ## Helper lemmas: field effects of each public operation -/

theorem connect_fst_eq (ws : SimpleWebSocket) :
    ws.connect.fst = { ws with spawnedLoops := ws.spawnedLoops + 1 } := rfl

theorem disconnect_fst_eq (ws : SimpleWebSocket) :
    ws.disconnect.fst =
      if ws.rxAlive then { ws with rx := ws.rx ++ [EasyWsCommand.Disconnect] } else ws := by
  unfold SimpleWebSocket.disconnect SimpleWebSocket.txSend
  by_cases h : ws.rxAlive = true <;> simp [h]

theorem send_fst_eq (ws : SimpleWebSocket) (m : String) :
    (ws.send m).fst =
      if ws.rxAlive then { ws with rx := ws.rx ++ [EasyWsCommand.Send m] } else ws := by
  unfold SimpleWebSocket.send SimpleWebSocket.txSend
  by_cases h : ws.rxAlive = true <;> simp [h]

theorem reachable_rxAlive {ws : SimpleWebSocket} (h : Reachable ws) : ws.rxAlive = true := by
  induction h with
  | of_new e t i => rfl
  | of_build b => rfl
  | of_connect _ ih => rw [connect_fst_eq]; exact ih
  | of_disconnect _ ih => rw [disconnect_fst_eq]; simp [ih]
  | of_send m _ ih => rw [send_fst_eq]; simp [ih]
  | of_on_connect c _ ih => exact ih
  | of_on_disconnect c _ ih => exact ih
  | of_on_message c _ ih => exact ih
  | of_on_error c _ ih => exact ih

/-! ## Claim theorems -/

/-- C1: the claim states that `send(text)` on a handle whose state is not
Connected returns the NotConnected error and never submits `Send(text)` to
the command channel.  The code does the opposite at the failing input: on a
freshly built handle (state Disconnected, hence not Connected),
`send("x")` returns `Ok(())` and enqueues `Send("x")` on the command
channel. -/
theorem c1_send_while_disconnected_submits_and_succeeds :
    (SimpleWebSocket.new "ws://x" 10000 1000).state ≠ EasyWsConnectionState.Connected ∧
    ((SimpleWebSocket.new "ws://x" 10000 1000).send "x").snd = Except.ok () ∧
    ((SimpleWebSocket.new "ws://x" 10000 1000).send "x").fst.rx
      = [EasyWsCommand.Send "x"] := by
  refine ⟨by decide, rfl, rfl⟩

/-- C2: the claim states that `disconnect()` while the state is Disconnected
returns the NotConnected error and only succeeds after a successful
`connect()` moved the state past Disconnected.  The code does the opposite at
the failing input: on a freshly built handle (state Disconnected, `connect`
never called), `disconnect()` returns `Ok(())` and submits the `Disconnect`
command. -/
theorem c2_disconnect_while_disconnected_submits_and_succeeds :
    (SimpleWebSocket.new "ws://x" 10000 1000).state = EasyWsConnectionState.Disconnected ∧
    (SimpleWebSocket.new "ws://x" 10000 1000).disconnect.snd = Except.ok () ∧
    (SimpleWebSocket.new "ws://x" 10000 1000).disconnect.fst.rx
      = [EasyWsCommand.Disconnect] := by
  refine ⟨rfl, rfl, rfl⟩

/-- C3: the claim states that `connect()` on a handle whose state is not
Disconnected returns the AlreadyConnected error and does not spawn a second
background loop.  The code does the opposite at the failing input: on a
handle in the Connecting state, `connect()` returns `Ok(())` and spawns a
thread; moreover two consecutive `connect()` calls on a fresh handle both
succeed and spawn two background loops. -/
theorem c3_connect_while_not_disconnected_succeeds_and_spawns :
    ({ SimpleWebSocket.new "ws://x" 10000 1000 with
         state := EasyWsConnectionState.Connecting } : SimpleWebSocket).state
      ≠ EasyWsConnectionState.Disconnected ∧
    ({ SimpleWebSocket.new "ws://x" 10000 1000 with
         state := EasyWsConnectionState.Connecting } : SimpleWebSocket).connect.snd
      = Except.ok () ∧
    ({ SimpleWebSocket.new "ws://x" 10000 1000 with
         state := EasyWsConnectionState.Connecting } : SimpleWebSocket).connect.fst.spawnedLoops
      = 1 ∧
    (SimpleWebSocket.new "ws://x" 10000 1000).connect.fst.connect.snd = Except.ok () ∧
    (SimpleWebSocket.new "ws://x" 10000 1000).connect.fst.connect.fst.spawnedLoops = 2 := by
  refine ⟨by decide, rfl, rfl, rfl, rfl⟩

/-- C4: the claim states that every command submitted to the command channel
is consumed exactly once, in submission order, by the background network
loop.  The code does the opposite at the failing input: after `disconnect()`
enqueues the `Disconnect` command, the spawned thread body never reads from
the channel — it consumes no command whether the transport open succeeds or
fails, so the submitted command is never consumed. -/
theorem c4_submitted_command_never_consumed :
    (SimpleWebSocket.new "ws://x" 10000 1000).disconnect.fst.rx
      = [EasyWsCommand.Disconnect] ∧
    (networkThreadBody (SimpleWebSocket.new "ws://x" 10000 1000).disconnect.fst
        (Except.ok [])).fst = [] ∧
    (networkThreadBody (SimpleWebSocket.new "ws://x" 10000 1000).disconnect.fst
        (Except.error "connection refused")).fst = [] := by
  refine ⟨rfl, rfl, rfl⟩

/-- C5: the claim states that a text message arriving on an open connection
is forwarded to the registered on_message handler, which is invoked with the
message text.  The code does the opposite at the failing input: with handler
0 registered and the message "hello" delivered by the transport, the
`WsClient::on_message` body ignores the message, and the thread performs no
callback invocation at all. -/
theorem c5_incoming_message_never_dispatched :
    ((SimpleWebSocket.new "ws://x" 10000 1000).on_message 0).on_message_fn = some 0 ∧
    networkThreadBody ((SimpleWebSocket.new "ws://x" 10000 1000).on_message 0)
        (Except.ok ["hello"]) = ([], []) ∧
    (WsClient.on_message { out := () } "hello").snd = [] := by
  refine ⟨rfl, rfl, rfl⟩

/-- C6: if `connect()` is called and the transport collaborator immediately
fails to open with description `d`, the handle's state ends Disconnected,
the registered on_error handler fires exactly once with `d`, and the
registered on_connect handler never fires: the thread's callback-invocation
list is exactly `[onError cbe d]`. -/
theorem c6_failed_open_state_disconnected_error_fires_once
    (e : String) (t i cbc cbe : Nat) (d : String) :
    ((((SimpleWebSocket.new e t i).on_connect cbc).on_error cbe).connect.fst.state
        = EasyWsConnectionState.Disconnected) ∧
    (networkThreadBody (((SimpleWebSocket.new e t i).on_connect cbc).on_error cbe).connect.fst
        (Except.error d)).snd = [CallbackEvent.onError cbe d] := by
  exact ⟨rfl, rfl⟩

/-- C7: a builder created for an endpoint defaults the timeout to 10000 ms
and the interval to 1000 ms; `with_timeout` and `with_interval` overwrite
exactly those fields; and for every builder, `build()` produces a handle in
the Disconnected state with zero background loops spawned. -/
theorem c7_builder_defaults_setters_and_build
    (e : String) (t i : Nat) (b : SimpleWebSocketBuilder) :
    (SimpleWebSocketBuilder.new e).timeout = 10000 ∧
    (SimpleWebSocketBuilder.new e).interval = 1000 ∧
    (SimpleWebSocketBuilder.new e).endpoint = e ∧
    b.with_timeout t = { b with timeout := t } ∧
    b.with_interval i = { b with interval := i } ∧
    b.build.state = EasyWsConnectionState.Disconnected ∧
    b.build.spawnedLoops = 0 := by
  exact ⟨rfl, rfl, rfl, rfl, rfl, rfl, rfl⟩

/-- C8: the connection configuration (endpoint, timeout, interval) is
unchanged by every public handle operation: `connect`, `disconnect`,
`send`, and the four callback registrations. -/
theorem c8_config_immutable_under_public_ops
    (ws : SimpleWebSocket) (m : String) (c : Nat) :
    ws.connect.fst.config = ws.config ∧
    ws.disconnect.fst.config = ws.config ∧
    (ws.send m).fst.config = ws.config ∧
    (ws.on_connect c).config = ws.config ∧
    (ws.on_disconnect c).config = ws.config ∧
    (ws.on_message c).config = ws.config ∧
    (ws.on_error c).config = ws.config := by
  refine ⟨rfl, ?_, ?_, rfl, rfl, rfl, rfl⟩
  · rw [disconnect_fst_eq]
    by_cases h : ws.rxAlive = true <;> simp [h, SimpleWebSocket.config]
  · rw [send_fst_eq]
    by_cases h : ws.rxAlive = true <;> simp [h, SimpleWebSocket.config]

/-- C9: the state field is Disconnected at construction and no public
operation ever mutates it, so `state = Disconnected` holds for every handle
reachable through the public API. -/
theorem c9_state_always_disconnected (ws : SimpleWebSocket) (h : Reachable ws) :
    ws.state = EasyWsConnectionState.Disconnected := by
  induction h with
  | of_new e t i => rfl
  | of_build b => rfl
  | of_connect _ ih => exact ih
  | of_disconnect _ ih => rw [disconnect_fst_eq]; split <;> exact ih
  | of_send m _ ih => rw [send_fst_eq]; split <;> exact ih
  | of_on_connect c _ ih => exact ih
  | of_on_disconnect c _ ih => exact ih
  | of_on_message c _ ih => exact ih
  | of_on_error c _ ih => exact ih

/-- Witness for C9: a freshly built handle is reachable and its state is
Disconnected. -/
theorem c9_state_always_disconnected_witness :
    (SimpleWebSocket.new "ws://x" 10000 1000).state = EasyWsConnectionState.Disconnected :=
  c9_state_always_disconnected _ (Reachable.of_new "ws://x" 10000 1000)

/-- C10: on every handle reachable through the public API, `send` and
`disconnect` return `Ok(())`: the channel-send error branch (converted to
`EasyWsError::Unknown`) is unreachable, because the handle owns the
receiving half of its command channel, so the channel is never closed. -/
theorem c10_send_and_disconnect_always_ok
    (ws : SimpleWebSocket) (h : Reachable ws) (m : String) :
    (ws.send m).snd = Except.ok () ∧ ws.disconnect.snd = Except.ok () := by
  have ha := reachable_rxAlive h
  constructor
  · unfold SimpleWebSocket.send SimpleWebSocket.txSend
    simp [ha]
  · unfold SimpleWebSocket.disconnect SimpleWebSocket.txSend
    simp [ha]

/-- Witness for C10: on a freshly built handle, `send("ping")` and
`disconnect()` both return `Ok(())`. -/
theorem c10_send_and_disconnect_always_ok_witness :
    ((SimpleWebSocket.new "ws://x" 10000 1000).send "ping").snd = Except.ok () ∧
    (SimpleWebSocket.new "ws://x" 10000 1000).disconnect.snd = Except.ok () :=
  c10_send_and_disconnect_always_ok _ (Reachable.of_new "ws://x" 10000 1000) "ping"
